import Mathlib

/-!
Shallow embedding of `src/lib.rs` of the `ezcrash` crate: a process-wide
crash reporter built on a Windows vectored exception handler.

Modelling conventions:
* Machine integers (`u32` exception codes, `usize` addresses, `u64`
  registers) are modelled as `Nat`; where width matters a `< 2 ^ 64`
  hypothesis is stated explicitly.
* The OS-provided `EXCEPTION_POINTERS` data is modelled by the structures
  `CONTEXT` and `EXCEPTION_RECORD` below (only the fields the handler
  reads; `ExceptionInformation` models the first three elements of the
  15-element array, the only ones the handler reads).
* The externally captured backtrace text (`std::backtrace::Backtrace`,
  rendered through `Display`) is an arbitrary input string.
* The file system is an external service: an arbitrary function from path
  and contents to a result, whose result the source discards
  (`let _ = std::fs::write(path, &w)`).
* Observable side effects of the callback (file write, log emission,
  message box) are collected in an explicit `Effect` list.
* A Rust panic (the `CString::new(w).unwrap()` on line 121 of the source)
  is modelled by the `Except.error` result of `handler`, carrying the
  effects already performed before the panic.
-/

namespace EzCrash

/-- The `ExceptionType` enum of the source (`#[repr(u32)]`, lines 15-43),
one variant per recognized Windows exception code. -/
inductive ExceptionType where
  | EXCEPTION_ACCESS_VIOLATION
  | EXCEPTION_ARRAY_BOUNDS_EXCEEDED
  | EXCEPTION_BREAKPOINT
  | EXCEPTION_DATATYPE_MISALIGNMENT
  | EXCEPTION_FLT_DENORMAL_OPERAND
  | EXCEPTION_FLT_DIVIDE_BY_ZERO
  | EXCEPTION_FLT_INEXACT_RESULT
  | EXCEPTION_FLT_INVALID_OPERATION
  | EXCEPTION_FLT_OVERFLOW
  | EXCEPTION_FLT_STACK_CHECK
  | EXCEPTION_FLT_UNDERFLOW
  | EXCEPTION_GUARD_PAGE
  | EXCEPTION_ILLEGAL_INSTRUCTION
  | EXCEPTION_INT_DIVIDE_BY_ZERO
  | EXCEPTION_INT_OVERFLOW
  | EXCEPTION_INVALID_DISPOSITION
  | EXCEPTION_INVALID_HANDLE
  | EXCEPTION_IN_PAGE_ERROR
  | EXCEPTION_NONCONTINUABLE_EXCEPTION
  | EXCEPTION_POSSIBLE_DEADLOCK
  | EXCEPTION_PRIV_INSTRUCTION
  | EXCEPTION_SINGLE_STEP
  | EXCEPTION_SPAPI_UNRECOVERABLE_STACK_OVERFLOW
  | EXCEPTION_STACK_OVERFLOW
  deriving DecidableEq

/-- The `#[repr(u32)]` discriminant of each variant (the numeric codes on
lines 19-42 of the source). -/
def codeOf : ExceptionType → Nat
  | .EXCEPTION_ACCESS_VIOLATION => 0xC0000005
  | .EXCEPTION_ARRAY_BOUNDS_EXCEEDED => 0xC000008C
  | .EXCEPTION_BREAKPOINT => 0x80000003
  | .EXCEPTION_DATATYPE_MISALIGNMENT => 0x80000002
  | .EXCEPTION_FLT_DENORMAL_OPERAND => 0xC000008D
  | .EXCEPTION_FLT_DIVIDE_BY_ZERO => 0xC000008E
  | .EXCEPTION_FLT_INEXACT_RESULT => 0xC000008F
  | .EXCEPTION_FLT_INVALID_OPERATION => 0xC0000090
  | .EXCEPTION_FLT_OVERFLOW => 0xC0000091
  | .EXCEPTION_FLT_STACK_CHECK => 0xC0000092
  | .EXCEPTION_FLT_UNDERFLOW => 0xC0000093
  | .EXCEPTION_GUARD_PAGE => 0x80000001
  | .EXCEPTION_ILLEGAL_INSTRUCTION => 0xC000001D
  | .EXCEPTION_INT_DIVIDE_BY_ZERO => 0xC0000094
  | .EXCEPTION_INT_OVERFLOW => 0xC0000095
  | .EXCEPTION_INVALID_DISPOSITION => 0xC0000026
  | .EXCEPTION_INVALID_HANDLE => 0xC0000008
  | .EXCEPTION_IN_PAGE_ERROR => 0xC0000006
  | .EXCEPTION_NONCONTINUABLE_EXCEPTION => 0xC0000025
  | .EXCEPTION_POSSIBLE_DEADLOCK => 0xC0000194
  | .EXCEPTION_PRIV_INSTRUCTION => 0xC0000096
  | .EXCEPTION_SINGLE_STEP => 0x80000004
  | .EXCEPTION_SPAPI_UNRECOVERABLE_STACK_OVERFLOW => 0xE0000300
  | .EXCEPTION_STACK_OVERFLOW => 0xC00000FD

/-- The classification table: each variant's discriminant paired with the
variant, in declaration order (lines 19-42 of the source). -/
def exceptionTable : List (Nat × ExceptionType) :=
  [(0xC0000005, .EXCEPTION_ACCESS_VIOLATION),
   (0xC000008C, .EXCEPTION_ARRAY_BOUNDS_EXCEEDED),
   (0x80000003, .EXCEPTION_BREAKPOINT),
   (0x80000002, .EXCEPTION_DATATYPE_MISALIGNMENT),
   (0xC000008D, .EXCEPTION_FLT_DENORMAL_OPERAND),
   (0xC000008E, .EXCEPTION_FLT_DIVIDE_BY_ZERO),
   (0xC000008F, .EXCEPTION_FLT_INEXACT_RESULT),
   (0xC0000090, .EXCEPTION_FLT_INVALID_OPERATION),
   (0xC0000091, .EXCEPTION_FLT_OVERFLOW),
   (0xC0000092, .EXCEPTION_FLT_STACK_CHECK),
   (0xC0000093, .EXCEPTION_FLT_UNDERFLOW),
   (0x80000001, .EXCEPTION_GUARD_PAGE),
   (0xC000001D, .EXCEPTION_ILLEGAL_INSTRUCTION),
   (0xC0000094, .EXCEPTION_INT_DIVIDE_BY_ZERO),
   (0xC0000095, .EXCEPTION_INT_OVERFLOW),
   (0xC0000026, .EXCEPTION_INVALID_DISPOSITION),
   (0xC0000008, .EXCEPTION_INVALID_HANDLE),
   (0xC0000006, .EXCEPTION_IN_PAGE_ERROR),
   (0xC0000025, .EXCEPTION_NONCONTINUABLE_EXCEPTION),
   (0xC0000194, .EXCEPTION_POSSIBLE_DEADLOCK),
   (0xC0000096, .EXCEPTION_PRIV_INSTRUCTION),
   (0x80000004, .EXCEPTION_SINGLE_STEP),
   (0xE0000300, .EXCEPTION_SPAPI_UNRECOVERABLE_STACK_OVERFLOW),
   (0xC00000FD, .EXCEPTION_STACK_OVERFLOW)]

/-- `ExceptionType::from_repr` as derived by `strum::FromRepr`: maps a raw
numeric code to the variant with that discriminant, `none` otherwise
(rendered as a lookup in `exceptionTable`, which is equivalent to the
derived discriminant match). -/
def fromRepr (n : Nat) : Option ExceptionType :=
  (exceptionTable.find? (fun p => p.1 == n)).map (fun p => p.2)

/-- The `strum::Display` rendering of a variant: its name. -/
def displayName : ExceptionType → String
  | .EXCEPTION_ACCESS_VIOLATION => "EXCEPTION_ACCESS_VIOLATION"
  | .EXCEPTION_ARRAY_BOUNDS_EXCEEDED => "EXCEPTION_ARRAY_BOUNDS_EXCEEDED"
  | .EXCEPTION_BREAKPOINT => "EXCEPTION_BREAKPOINT"
  | .EXCEPTION_DATATYPE_MISALIGNMENT => "EXCEPTION_DATATYPE_MISALIGNMENT"
  | .EXCEPTION_FLT_DENORMAL_OPERAND => "EXCEPTION_FLT_DENORMAL_OPERAND"
  | .EXCEPTION_FLT_DIVIDE_BY_ZERO => "EXCEPTION_FLT_DIVIDE_BY_ZERO"
  | .EXCEPTION_FLT_INEXACT_RESULT => "EXCEPTION_FLT_INEXACT_RESULT"
  | .EXCEPTION_FLT_INVALID_OPERATION => "EXCEPTION_FLT_INVALID_OPERATION"
  | .EXCEPTION_FLT_OVERFLOW => "EXCEPTION_FLT_OVERFLOW"
  | .EXCEPTION_FLT_STACK_CHECK => "EXCEPTION_FLT_STACK_CHECK"
  | .EXCEPTION_FLT_UNDERFLOW => "EXCEPTION_FLT_UNDERFLOW"
  | .EXCEPTION_GUARD_PAGE => "EXCEPTION_GUARD_PAGE"
  | .EXCEPTION_ILLEGAL_INSTRUCTION => "EXCEPTION_ILLEGAL_INSTRUCTION"
  | .EXCEPTION_INT_DIVIDE_BY_ZERO => "EXCEPTION_INT_DIVIDE_BY_ZERO"
  | .EXCEPTION_INT_OVERFLOW => "EXCEPTION_INT_OVERFLOW"
  | .EXCEPTION_INVALID_DISPOSITION => "EXCEPTION_INVALID_DISPOSITION"
  | .EXCEPTION_INVALID_HANDLE => "EXCEPTION_INVALID_HANDLE"
  | .EXCEPTION_IN_PAGE_ERROR => "EXCEPTION_IN_PAGE_ERROR"
  | .EXCEPTION_NONCONTINUABLE_EXCEPTION => "EXCEPTION_NONCONTINUABLE_EXCEPTION"
  | .EXCEPTION_POSSIBLE_DEADLOCK => "EXCEPTION_POSSIBLE_DEADLOCK"
  | .EXCEPTION_PRIV_INSTRUCTION => "EXCEPTION_PRIV_INSTRUCTION"
  | .EXCEPTION_SINGLE_STEP => "EXCEPTION_SINGLE_STEP"
  | .EXCEPTION_SPAPI_UNRECOVERABLE_STACK_OVERFLOW =>
      "EXCEPTION_SPAPI_UNRECOVERABLE_STACK_OVERFLOW"
  | .EXCEPTION_STACK_OVERFLOW => "EXCEPTION_STACK_OVERFLOW"

/-- The two variants handled by the memory-access arm of the `match` on
lines 76-86 of the source (`EXCEPTION_ACCESS_VIOLATION | EXCEPTION_IN_PAGE_ERROR`). -/
def memAccessClass : ExceptionType → Bool
  | .EXCEPTION_ACCESS_VIOLATION => true
  | .EXCEPTION_IN_PAGE_ERROR => true
  | _ => false

/-- The fields of the Windows thread context (`CONTEXT`) that the handler
reads on lines 88-109: the sixteen general-purpose registers and `Rip`. -/
structure CONTEXT where
  Rax : Nat
  Rbx : Nat
  Rcx : Nat
  Rdx : Nat
  Rsi : Nat
  Rdi : Nat
  Rbp : Nat
  Rsp : Nat
  R8 : Nat
  R9 : Nat
  R10 : Nat
  R11 : Nat
  R12 : Nat
  R13 : Nat
  R14 : Nat
  R15 : Nat
  Rip : Nat
  deriving DecidableEq

/-- The fields of the Windows `EXCEPTION_RECORD` the handler reads:
`ExceptionCode` (the raw `u32` value of the `NTSTATUS`), `ExceptionAddress`
(as `usize`), and the first three `ExceptionInformation` words (lines 61-67). -/
structure EXCEPTION_RECORD where
  ExceptionCode : Nat
  ExceptionAddress : Nat
  ExceptionInformation : Nat × Nat × Nat
  deriving DecidableEq

/-- The `EzCrashConfiguration` struct (lines 139-146 of the source). -/
structure EzCrashConfiguration where
  output_messagebox : Bool
  output_log : Bool
  output_file : Option String
  include_stack_trace : Bool
  include_thread_context : Bool
  deriving DecidableEq

/-- The `Default` impl of `EzCrashConfiguration` (lines 148-158). -/
def EzCrashConfiguration.default : EzCrashConfiguration :=
  ⟨true, true, some "crash", true, true⟩

/-- `OnceCell::set` as used by `init` (line 164) on the state of
`static mut CFG: OnceCell<EzCrashConfiguration>` (line 160), modelled as
`Option EzCrashConfiguration` (`none` = never initialized): installs the value only
when the cell is empty; otherwise the cell keeps its old value and the
`Result::Err` returned by `set` is discarded by `let _ =`. -/
def cfgSet (cell : Option EzCrashConfiguration) (c : EzCrashConfiguration) :
    Option EzCrashConfiguration :=
  match cell with
  | none => some c
  | some old => some old

/-- `init` (lines 163-167): attempts to set `CFG` once; the call to the
external `AddVectoredExceptionHandler` registration primitive has no effect
on this state and its result is likewise discarded. -/
def init (cell : Option EzCrashConfiguration) (cfg : EzCrashConfiguration) :
    Option EzCrashConfiguration :=
  cfgSet cell cfg

/-- The configuration the handler reads on lines 46-48:
`CFG.get().map_or(EzCrashConfiguration::default(), |x| x.clone())`. -/
def cfgCurrent (cell : Option EzCrashConfiguration) : EzCrashConfiguration :=
  match cell with
  | none => EzCrashConfiguration.default
  | some x => x

/-- One hexadecimal digit, uppercase, as produced by Rust's `{:X}`. -/
def hexChar (n : Nat) : Char :=
  if n < 10 then Char.ofNat (48 + n) else Char.ofNat (55 + n)

/-- Digits of `n` in base 16, most significant first, accumulated onto
`acc`; `fuel` bounds the recursion (any `fuel > n` is exact). -/
def toHexCore (fuel : Nat) (n : Nat) (acc : List Char) : List Char :=
  match fuel with
  | 0 => acc
  | fuel + 1 =>
      if n < 16 then hexChar n :: acc
      else toHexCore fuel (n / 16) (hexChar (n % 16) :: acc)

/-- Uppercase hexadecimal digits of `n`, as Rust's `{:X}` prints them. -/
def toHex (n : Nat) : String :=
  ⟨toHexCore (n + 1) n []⟩

/-- Rust's `{:#0wX}` formatting: the `0x` prefix, then zeros padding the
total width to `w`, then the uppercase hex digits. -/
def fmtHex (w : Nat) (n : Nat) : String :=
  "0x" ++ ⟨List.replicate (w - 2 - (toHex n).length) '0'⟩ ++ toHex n

/-- The report text assembled into the byte buffer `w` by the `writeln!`
calls on lines 50-115 of the source, for an already-classified fault.
Each parenthesized group is the output of one `writeln!` (its format
string with `\n` appended).  The `match info.0` selecting the
access-detail line is an integer-literal match, rendered here as the
equivalent chain of equality tests. -/
def buildReport (cfg : EzCrashConfiguration) (ctx : CONTEXT)
    (record : EXCEPTION_RECORD) (code : ExceptionType) (backtrace : String) :
    String :=
  let w := "Crash :(\n"
  let addr := record.ExceptionAddress
  let info := record.ExceptionInformation
  let w := w ++ ("An exception occurred at " ++ fmtHex 18 addr ++ "\n\n")
  let w := w ++ (fmtHex 10 record.ExceptionCode ++ ": " ++ displayName code ++ "\n\n")
  let w :=
    match code with
    | .EXCEPTION_ACCESS_VIOLATION | .EXCEPTION_IN_PAGE_ERROR =>
        w ++ ((if info.1 = 0 then "Invalid Read from " ++ fmtHex 18 info.2.1
               else if info.1 = 1 then "Invalid Write to " ++ fmtHex 18 info.2.1
               else if info.1 = 8 then "Tripped DEP at " ++ fmtHex 18 info.2.1
               else "Unknown access violation at " ++ fmtHex 18 info.2.1) ++ "\n")
    | _ => w
  let w :=
    if cfg.include_thread_context then
      let w := w ++ ("\nThread Context\nRAX: " ++ fmtHex 18 ctx.Rax ++ " | RSI: " ++
        fmtHex 18 ctx.Rsi ++ "\nRBX: " ++ fmtHex 18 ctx.Rbx ++ " | RDI: " ++
        fmtHex 18 ctx.Rdi ++ "\n")
      let w := w ++ ("RCX: " ++ fmtHex 18 ctx.Rcx ++ " | RBP: " ++ fmtHex 18 ctx.Rbp ++
        "\nRDX: " ++ fmtHex 18 ctx.Rdx ++ " | RSP: " ++ fmtHex 18 ctx.Rsp ++ "\n")
      let w := w ++ ("R8: " ++ fmtHex 18 ctx.R8 ++ " | R9: " ++ fmtHex 18 ctx.R9 ++
        "\nR10: " ++ fmtHex 18 ctx.R10 ++ " | R11: " ++ fmtHex 18 ctx.R11 ++ "\n")
      let w := w ++ ("R12: " ++ fmtHex 18 ctx.R12 ++ " | R13: " ++ fmtHex 18 ctx.R13 ++
        "\nR14: " ++ fmtHex 18 ctx.R14 ++ " | R15: " ++ fmtHex 18 ctx.R15 ++
        "\n\nRIP: " ++ fmtHex 18 ctx.Rip ++ "\n")
      w
    else w
  let w :=
    if cfg.include_stack_trace then w ++ ("\nStack Trace\n" ++ backtrace ++ "\n")
    else w
  w

/-- `CString::new` on the report bytes (line 121): fails exactly when the
buffer contains an interior NUL byte (in this model, the NUL character,
which is the only character whose UTF-8 encoding contains a zero byte). -/
def cstringNew (s : String) : Option String :=
  if s.data.contains (Char.ofNat 0) then none else some s

/-- An observable side effect of the callback: a request to the file
system, the logging subsystem, or the modal-dialog primitive. -/
inductive Effect where
  | fileWrite (path : String) (contents : String)
  | logError (message : String)
  | messageBox (title : String) (message : String)
  deriving DecidableEq

/-- Value of the `EXCEPTION_CONTINUE_EXECUTION` disposition (line 58). -/
def EXCEPTION_CONTINUE_EXECUTION : Int := -1

/-- Value of the `EXCEPTION_CONTINUE_SEARCH` disposition (line 136). -/
def EXCEPTION_CONTINUE_SEARCH : Int := 0

/-- What a completed invocation of the handler produced: the disposition
returned to the OS, the sink effects performed, and the final values of
the OS-provided context and exception record (which the source accesses
through `&mut` references, so their final values are stated explicitly). -/
structure HandlerResult where
  disposition : Int
  effects : List Effect
  ctxAfter : CONTEXT
  recordAfter : EXCEPTION_RECORD
  deriving DecidableEq

/-- The vectored exception handler `handler` (lines 45-137).  `cell` is the
state of `CFG`; `fs` is the external file system (result discarded by the
source); `backtrace` is the externally captured backtrace text.  A normal
return is `Except.ok`; the panic of `CString::new(w).unwrap()` on an
interior NUL is `Except.error`, carrying the effects performed before the
panic (the file write precedes the conversion). -/
def handler (cell : Option EzCrashConfiguration) (ctx : CONTEXT)
    (record : EXCEPTION_RECORD) (backtrace : String)
    (fs : String → String → Except Unit Unit) :
    Except (List Effect) HandlerResult :=
  let cfg := cfgCurrent cell
  match fromRepr record.ExceptionCode with
  | none => Except.ok ⟨EXCEPTION_CONTINUE_EXECUTION, [], ctx, record⟩
  | some code =>
      let w := buildReport cfg ctx record code backtrace
      let fileEffects :=
        match cfg.output_file with
        | some path =>
            let _ := fs path w
            [Effect.fileWrite path w]
        | none => []
      match cstringNew w with
      | none => Except.error fileEffects
      | some message =>
          let logEffects := if cfg.output_log then [Effect.logError message] else []
          let boxEffects :=
            if cfg.output_messagebox then [Effect.messageBox "Crash" message] else []
          Except.ok ⟨EXCEPTION_CONTINUE_SEARCH, fileEffects ++ logEffects ++ boxEffects,
            ctx, record⟩

/-! Named report sections, used to state layout claims about `buildReport`. -/

/-- The fixed header line (line 51 of the source), with its newline. -/
def headerSection : String := "Crash :(\n"

/-- The fault-address line (line 69): one text line followed by a blank
line (`writeln!` of a format string that itself ends in `\n`). -/
def faultAddressSection (record : EXCEPTION_RECORD) : String :=
  "An exception occurred at " ++ fmtHex 18 record.ExceptionAddress ++ "\n\n"

/-- The fault-kind line (lines 70-74): numeric code and kind name, followed
by a blank line. -/
def faultKindSection (record : EXCEPTION_RECORD) (code : ExceptionType) : String :=
  fmtHex 10 record.ExceptionCode ++ ": " ++ displayName code ++ "\n\n"

/-- The access-detail line body selected by auxiliary word 0 (lines 78-82),
showing the address in auxiliary word 1; without its trailing newline. -/
def accessDetailLine (info0 info1 : Nat) : String :=
  if info0 = 0 then "Invalid Read from " ++ fmtHex 18 info1
  else if info0 = 1 then "Invalid Write to " ++ fmtHex 18 info1
  else if info0 = 8 then "Tripped DEP at " ++ fmtHex 18 info1
  else "Unknown access violation at " ++ fmtHex 18 info1

/-- The access-detail section: present exactly for the memory-access-class
fault kinds (lines 76-86), empty otherwise. -/
def accessSection (record : EXCEPTION_RECORD) (code : ExceptionType) : String :=
  if memAccessClass code then
    accessDetailLine record.ExceptionInformation.1 record.ExceptionInformation.2.1 ++ "\n"
  else ""

/-- The thread-context block (lines 88-109): a blank line, the
`Thread Context` title, eight lines of paired registers, a blank line and
the `RIP:` line. -/
def threadContextSection (ctx : CONTEXT) : String :=
  ("\nThread Context\nRAX: " ++ fmtHex 18 ctx.Rax ++ " | RSI: " ++
    fmtHex 18 ctx.Rsi ++ "\nRBX: " ++ fmtHex 18 ctx.Rbx ++ " | RDI: " ++
    fmtHex 18 ctx.Rdi ++ "\n") ++
  ("RCX: " ++ fmtHex 18 ctx.Rcx ++ " | RBP: " ++ fmtHex 18 ctx.Rbp ++
    "\nRDX: " ++ fmtHex 18 ctx.Rdx ++ " | RSP: " ++ fmtHex 18 ctx.Rsp ++ "\n") ++
  ("R8: " ++ fmtHex 18 ctx.R8 ++ " | R9: " ++ fmtHex 18 ctx.R9 ++
    "\nR10: " ++ fmtHex 18 ctx.R10 ++ " | R11: " ++ fmtHex 18 ctx.R11 ++ "\n") ++
  ("R12: " ++ fmtHex 18 ctx.R12 ++ " | R13: " ++ fmtHex 18 ctx.R13 ++
    "\nR14: " ++ fmtHex 18 ctx.R14 ++ " | R15: " ++ fmtHex 18 ctx.R15 ++
    "\n\nRIP: " ++ fmtHex 18 ctx.Rip ++ "\n")

/-- The thread-context block, gated by `include_thread_context` (line 88). -/
def threadContextSectionIf (cfg : EzCrashConfiguration) (ctx : CONTEXT) : String :=
  if cfg.include_thread_context then threadContextSection ctx else ""

/-- The stack-trace block (line 114): a blank line, the `Stack Trace`
title, and the backtrace text. -/
def stackTraceSection (backtrace : String) : String :=
  "\nStack Trace\n" ++ backtrace ++ "\n"

/-- The stack-trace block, gated by `include_stack_trace` (line 113). -/
def stackTraceSectionIf (cfg : EzCrashConfiguration) (backtrace : String) : String :=
  if cfg.include_stack_trace then stackTraceSection backtrace else ""

/-! Small executable text utilities used to state claims about the lines
of a report. -/

/-- The lines of a character list, splitting at every newline character
(so a terminal newline yields a final empty line). -/
def splitLines : List Char → List (List Char)
  | [] => [[]]
  | c :: cs =>
      if c = '\n' then [] :: splitLines cs
      else
        match splitLines cs with
        | [] => [[c]]
        | l :: ls => (c :: l) :: ls

/-- Whether `pat` occurs at the start of `l`. -/
def startsWith : List Char → List Char → Bool
  | [], _ => true
  | _ :: _, [] => false
  | p :: ps, c :: cs => p = c && startsWith ps cs

/-- Whether `pat` occurs contiguously anywhere in `l`. -/
def containsSeq (pat : List Char) : List Char → Bool
  | [] => startsWith pat []
  | c :: cs => startsWith pat (c :: cs) || containsSeq pat cs

/-! Concrete inputs used by witnesses and counterexamples. -/

/-- An all-zero register snapshot. -/
def ctx0 : CONTEXT := ⟨0, 0, 0, 0, 0, 0, 0, 0, 0, 0, 0, 0, 0, 0, 0, 0, 0⟩

/-- A file system on which every write succeeds. -/
def fsOk : String → String → Except Unit Unit := fun _ _ => Except.ok ()

/-- A file system on which every write fails. -/
def fsFail : String → String → Except Unit Unit := fun _ _ => Except.error ()

/-- A one-character backtrace text consisting of a NUL character. -/
def btNul : String := ⟨[Char.ofNat 0]⟩

/-- A record with a code outside the classification table. -/
def recUnknown : EXCEPTION_RECORD := ⟨0, 0, (0, 0, 0)⟩

/-- An access-violation record: an invalid write (word 0 = 1) to address
`0x20`, faulting instruction at `0x10`. -/
def recC1 : EXCEPTION_RECORD := ⟨0xC0000005, 0x10, (1, 0x20, 0)⟩

/-- A configuration with every sink and every optional section disabled. -/
def cfgQuiet : EzCrashConfiguration := ⟨false, false, none, false, false⟩

/-- A configuration with no sinks, no thread context, but the stack trace
included. -/
def cfgTraceOnly : EzCrashConfiguration := ⟨false, false, none, true, false⟩

/-- A breakpoint record (code `0x80000003`). -/
def recBP : EXCEPTION_RECORD := ⟨0x80000003, 0, (0, 0, 0)⟩

/-- A breakpoint record at address 5. -/
def recBP5 : EXCEPTION_RECORD := ⟨0x80000003, 5, (0, 0, 0)⟩

/-- A configuration with all three sinks enabled (file path `crash`), the
stack trace included, and the thread context excluded. -/
def cfgSinks : EzCrashConfiguration := ⟨true, true, some "crash", true, false⟩

/-- A configuration with all three sinks enabled (file path `out`) and
both optional report sections excluded. -/
def cfgOut : EzCrashConfiguration := ⟨true, true, some "out", false, false⟩

/-- The report the handler builds for `cfgOut`, `ctx0`, `recBP5` and
backtrace text `"b"`. -/
def wOut : String :=
  buildReport cfgOut ctx0 recBP5 ExceptionType.EXCEPTION_BREAKPOINT "b"

/-- The completed-invocation result for `cfgOut`, `ctx0`, `recBP5`,
backtrace `"b"`: continue search, with all three sink effects. -/
def rOut : HandlerResult :=
  ⟨EXCEPTION_CONTINUE_SEARCH,
    [Effect.fileWrite "out" wOut, Effect.logError wOut, Effect.messageBox "Crash" wOut],
    ctx0, recBP5⟩

/-- The completed-invocation result for `cfgQuiet`, `ctx0`, `recBP`,
backtrace `"b"`: continue search with no effects. -/
def rQuiet : HandlerResult := ⟨EXCEPTION_CONTINUE_SEARCH, [], ctx0, recBP⟩

/-- An access-violation record: an invalid write (word 0 = 1) to the null
address, faulting instruction at `0x1000`. -/
def recC8 : EXCEPTION_RECORD := ⟨0xC0000005, 0x1000, (1, 0, 0)⟩

/-- An access-violation record: an invalid read (word 0 = 0) from the null
address, faulting instruction at the null address. -/
def recC10 : EXCEPTION_RECORD := ⟨0xC0000005, 0, (0, 0, 0)⟩

/-- The report built for `recC10` under the default configuration. -/
def repC10 : String :=
  buildReport EzCrashConfiguration.default ctx0 recC10
    ExceptionType.EXCEPTION_ACCESS_VIOLATION "trace"

/-! Helper lemmas about the hexadecimal formatter. -/

theorem toHexCore_length_le :
    ∀ (fuel n : Nat) (acc : List Char) (k : Nat),
      n < fuel → n < 16 ^ k → 1 ≤ k →
      (toHexCore fuel n acc).length ≤ k + acc.length := by
  intro fuel
  induction fuel with
  | zero =>
      intro n acc k h _ _
      exact absurd h (Nat.not_lt_zero n)
  | succ fuel ih =>
      intro n acc k hfuel hpow hk
      by_cases h16 : n < 16
      · simp only [toHexCore, h16, if_true, List.length_cons]
        omega
      · simp only [toHexCore, h16, if_false]
        have hk2 : 2 ≤ k := by
          rcases k with _ | _ | k
          · omega
          · exfalso
            rw [pow_one] at hpow
            omega
          · omega
        have hdiv : n / 16 < n := Nat.div_lt_self (by omega) (by omega)
        have h1 : n / 16 < fuel := by omega
        have h2 : n / 16 < 16 ^ (k - 1) := by
          rw [Nat.div_lt_iff_lt_mul (by omega : 0 < 16)]
          have hpw : 16 ^ (k - 1) * 16 = 16 ^ k := by
            rw [← pow_succ]
            congr 1
            omega
          omega
        have h3 : 1 ≤ k - 1 := by omega
        have hrec := ih (n / 16) (hexChar (n % 16) :: acc) (k - 1) h1 h2 h3
        simp only [List.length_cons] at hrec
        omega

theorem toHex_length_le {n : Nat} (h : n < 2 ^ 64) : (toHex n).length ≤ 16 := by
  have hpow : (16 : Nat) ^ 16 = 2 ^ 64 := by norm_num
  have h16 : n < 16 ^ 16 := by omega
  have hlen := toHexCore_length_le (n + 1) n [] 16 (by omega) h16 (by omega)
  simpa [toHex] using hlen

theorem fmtHex18_length {n : Nat} (h : n < 2 ^ 64) : (fmtHex 18 n).length = 18 := by
  have hle := toHex_length_le h
  simp only [fmtHex, String.length_append, String.length_mk, List.length_replicate,
    show ("0x" : String).length = 2 from rfl]
  omega

theorem hexChar_ne_newline : ∀ d : Nat, d < 16 → hexChar d ≠ '\n' := by decide

theorem toHexCore_no_newline :
    ∀ (fuel n : Nat) (acc : List Char), (∀ c ∈ acc, c ≠ '\n') →
      ∀ c ∈ toHexCore fuel n acc, c ≠ '\n' := by
  intro fuel
  induction fuel with
  | zero =>
      intro n acc hacc c hc
      simp only [toHexCore] at hc
      exact hacc c hc
  | succ fuel ih =>
      intro n acc hacc c hc
      simp only [toHexCore] at hc
      by_cases h16 : n < 16
      · rw [if_pos h16] at hc
        rcases List.mem_cons.mp hc with h | h
        · subst h
          exact hexChar_ne_newline n h16
        · exact hacc c h
      · rw [if_neg h16] at hc
        refine ih (n / 16) (hexChar (n % 16) :: acc) ?_ c hc
        intro d hd
        rcases List.mem_cons.mp hd with h | h
        · subst h
          exact hexChar_ne_newline _ (Nat.mod_lt _ (by omega))
        · exact hacc d h

theorem fmtHex_no_newline (w n : Nat) : ∀ c ∈ (fmtHex w n).data, c ≠ '\n' := by
  intro c hc
  simp only [fmtHex, String.data_append] at hc
  rcases List.mem_append.mp hc with h | h
  · rcases List.mem_append.mp h with h2 | h2
    · simp only [show ("0x" : String).data = ['0', 'x'] from rfl, List.mem_cons,
        List.not_mem_nil, or_false] at h2
      rcases h2 with rfl | rfl <;> decide
    · have hrep := List.eq_of_mem_replicate h2
      subst hrep
      decide
  · have hx : c ∈ toHexCore (n + 1) n [] := by simpa [toHex] using h
    exact toHexCore_no_newline (n + 1) n [] (by intro d hd; simp at hd) c hx

/-! Claim theorems. -/

/-- C4: with no configuration ever installed, the configuration the
callback reads (`cfgCurrent none`) is the hard-coded default: dialog sink
enabled, log sink enabled, output file path `some "crash"`, stack trace
included, register snapshot included. -/
theorem default_configuration_spec :
    cfgCurrent none = EzCrashConfiguration.default ∧
    EzCrashConfiguration.default = ⟨true, true, some "crash", true, true⟩ :=
  ⟨rfl, rfl⟩

/-- C5: configuration is write-once: after `init none c1` has installed
`c1`, a later `init _ c2` leaves the stored state unchanged, every
subsequent read still yields `c1`, and the handler behaves identically to
the handler under the state right after the first `init`. -/
theorem configuration_write_once (c1 c2 : EzCrashConfiguration) :
    init (init none c1) c2 = init none c1 ∧
    cfgCurrent (init (init none c1) c2) = c1 ∧
    ∀ (ctx : CONTEXT) (record : EXCEPTION_RECORD) (bt : String)
      (fs : String → String → Except Unit Unit),
      handler (init (init none c1) c2) ctx record bt fs =
        handler (init none c1) ctx record bt fs :=
  ⟨rfl, rfl, fun _ _ _ _ => rfl⟩

/-- C2: for a fault whose raw code is not in the classification table, the
callback returns the resume-execution disposition, performs no sink effect
(no file write, no log emission, no dialog), and leaves the context and
record unchanged. -/
theorem unknown_fault_resume (cell : Option EzCrashConfiguration)
    (ctx : CONTEXT) (record : EXCEPTION_RECORD) (bt : String)
    (fs : String → String → Except Unit Unit)
    (h : fromRepr record.ExceptionCode = none) :
    handler cell ctx record bt fs =
      Except.ok ⟨EXCEPTION_CONTINUE_EXECUTION, [], ctx, record⟩ := by
  simp [handler, h]

theorem unknown_fault_resume_witness :
    fromRepr recUnknown.ExceptionCode = none ∧
    handler none ctx0 recUnknown "" fsOk =
      Except.ok ⟨EXCEPTION_CONTINUE_EXECUTION, [], ctx0, recUnknown⟩ :=
  ⟨by decide, unknown_fault_resume none ctx0 recUnknown "" fsOk (by decide)⟩

/-- C6: classification is the pure total function `fromRepr`: every
canonical numeric code in the table maps to `some` of its named kind, and
every code outside the table maps to `none`. -/
theorem exceptionTable_codes : ∀ p ∈ exceptionTable, p.1 = codeOf p.2 := by decide

theorem classification_table_correct :
    (∀ e : ExceptionType, fromRepr (codeOf e) = some e) ∧
    (∀ n : Nat, (∀ e : ExceptionType, codeOf e ≠ n) → fromRepr n = none) := by
  constructor
  · intro e
    cases e <;> decide
  · intro n h
    unfold fromRepr
    have hnone : exceptionTable.find? (fun p => p.1 == n) = none := by
      rw [List.find?_eq_none]
      intro p hp
      have hpc : p.1 = codeOf p.2 := exceptionTable_codes p hp
      simp only [beq_eq_false_iff_ne, ne_eq, Bool.not_eq_true, beq_iff_eq, hpc]
      exact h p.2
    rw [hnone]
    rfl

theorem classification_table_correct_witness :
    (∀ e : ExceptionType, codeOf e ≠ 0xDEADBEEF) ∧
    fromRepr 0xDEADBEEF = none :=
  ⟨by intro e; cases e <;> decide,
   classification_table_correct.2 0xDEADBEEF (by intro e; cases e <;> decide)⟩

/-- The report decomposes into the named sections, in order. -/
theorem buildReport_eq_sections (cfg : EzCrashConfiguration) (ctx : CONTEXT)
    (record : EXCEPTION_RECORD) (code : ExceptionType) (bt : String) :
    buildReport cfg ctx record code bt =
      headerSection ++ faultAddressSection record ++ faultKindSection record code ++
        accessSection record code ++ threadContextSectionIf cfg ctx ++
        stackTraceSectionIf cfg bt := by
  obtain ⟨mb, lg, f, stt, tc⟩ := cfg
  cases code <;> cases stt <;> cases tc <;>
    simp [buildReport, headerSection, faultAddressSection, faultKindSection,
      accessSection, accessDetailLine, memAccessClass, threadContextSection,
      threadContextSectionIf, stackTraceSection, stackTraceSectionIf,
      String.append_assoc, String.append_empty, String.empty_append]

/-- C10 (amended): for every configuration, context, record, classified
kind and backtrace, the report text is exactly the concatenation, in this
order, of: the header line; the fault-address line followed by a blank
line; the fault-kind line followed by a blank line; the access-detail line
(present exactly for memory-access-class faults); the thread-context block
(a blank line, a `Thread Context` title, eight lines of paired fixed-width
hex register values, a blank line and the `RIP:` line — present exactly
when `include_thread_context` is enabled); and the stack-trace block (a
blank line, a `Stack Trace` title and the backtrace text — present exactly
when `include_stack_trace` is enabled); and nothing else. -/
theorem report_layout_sections (cfg : EzCrashConfiguration) (ctx : CONTEXT)
    (record : EXCEPTION_RECORD) (code : ExceptionType) (bt : String) :
    buildReport cfg ctx record code bt =
      headerSection ++ faultAddressSection record ++ faultKindSection record code ++
        accessSection record code ++ threadContextSectionIf cfg ctx ++
        stackTraceSectionIf cfg bt :=
  buildReport_eq_sections cfg ctx record code bt

/-- C10 (counterexample to the claim as stated): on a concrete
access-violation report under the default configuration, the line after
the header is the fault-address line, not the blank line the claimed
layout (header; blank; identification; ...) requires; and the register
block has eight lines of paired hex values, not four. -/
theorem report_layout_as_claimed_fails :
    (splitLines repC10.data).get? 1 =
      some "An exception occurred at 0x0000000000000000".data ∧
    "An exception occurred at 0x0000000000000000".data ≠ [] ∧
    (splitLines repC10.data).countP (fun l => containsSeq " | ".data l) = 8 :=
  ⟨rfl, by decide, rfl⟩

/-- C1: for a fault classified as a memory-access-class kind, the report
contains a single access-detail line, placed between the fault-kind
section and the optional blocks, selected by auxiliary word 0 (0 → invalid
read, 1 → invalid write, 8 → DEP/execution prevention, otherwise the
generic unknown-access phrasing), always showing the address in auxiliary
word 1 in fixed-width (18 characters including the `0x` prefix)
hexadecimal; the line contains no newline character. -/
theorem access_detail_line_correct (cfg : EzCrashConfiguration) (ctx : CONTEXT)
    (record : EXCEPTION_RECORD) (code : ExceptionType) (bt : String)
    (hcode : fromRepr record.ExceptionCode = some code)
    (hmem : memAccessClass code = true)
    (haddr : record.ExceptionInformation.2.1 < 2 ^ 64) :
    ∃ line : String,
      buildReport cfg ctx record code bt =
        headerSection ++ faultAddressSection record ++ faultKindSection record code ++
          (line ++ "\n") ++ threadContextSectionIf cfg ctx ++
          stackTraceSectionIf cfg bt ∧
      line =
        (if record.ExceptionInformation.1 = 0 then
          "Invalid Read from " ++ fmtHex 18 record.ExceptionInformation.2.1
        else if record.ExceptionInformation.1 = 1 then
          "Invalid Write to " ++ fmtHex 18 record.ExceptionInformation.2.1
        else if record.ExceptionInformation.1 = 8 then
          "Tripped DEP at " ++ fmtHex 18 record.ExceptionInformation.2.1
        else
          "Unknown access violation at " ++ fmtHex 18 record.ExceptionInformation.2.1) ∧
      (∀ c ∈ line.data, c ≠ '\n') ∧
      (fmtHex 18 record.ExceptionInformation.2.1).length = 18 := by
  refine ⟨accessDetailLine record.ExceptionInformation.1 record.ExceptionInformation.2.1,
    ?_, by rw [accessDetailLine], ?_, fmtHex18_length haddr⟩
  · rw [buildReport_eq_sections cfg ctx record code bt, accessSection, if_pos hmem]
  · unfold accessDetailLine
    split_ifs
    · intro c hc
      simp only [String.data_append] at hc
      rcases List.mem_append.mp hc with h | h
      · exact (by decide : ∀ c ∈ ("Invalid Read from " : String).data, c ≠ '\n') c h
      · exact fmtHex_no_newline 18 _ c h
    · intro c hc
      simp only [String.data_append] at hc
      rcases List.mem_append.mp hc with h | h
      · exact (by decide : ∀ c ∈ ("Invalid Write to " : String).data, c ≠ '\n') c h
      · exact fmtHex_no_newline 18 _ c h
    · intro c hc
      simp only [String.data_append] at hc
      rcases List.mem_append.mp hc with h | h
      · exact (by decide : ∀ c ∈ ("Tripped DEP at " : String).data, c ≠ '\n') c h
      · exact fmtHex_no_newline 18 _ c h
    · intro c hc
      simp only [String.data_append] at hc
      rcases List.mem_append.mp hc with h | h
      · exact
          (by decide : ∀ c ∈ ("Unknown access violation at " : String).data, c ≠ '\n') c h
      · exact fmtHex_no_newline 18 _ c h

theorem access_detail_line_correct_witness :
    fromRepr recC1.ExceptionCode = some ExceptionType.EXCEPTION_ACCESS_VIOLATION ∧
    memAccessClass ExceptionType.EXCEPTION_ACCESS_VIOLATION = true ∧
    recC1.ExceptionInformation.2.1 < 2 ^ 64 ∧
    ∃ line : String,
      buildReport cfgQuiet ctx0 recC1 ExceptionType.EXCEPTION_ACCESS_VIOLATION "b" =
        headerSection ++ faultAddressSection recC1 ++
          faultKindSection recC1 ExceptionType.EXCEPTION_ACCESS_VIOLATION ++
          (line ++ "\n") ++ threadContextSectionIf cfgQuiet ctx0 ++
          stackTraceSectionIf cfgQuiet "b" ∧
      line =
        (if recC1.ExceptionInformation.1 = 0 then
          "Invalid Read from " ++ fmtHex 18 recC1.ExceptionInformation.2.1
        else if recC1.ExceptionInformation.1 = 1 then
          "Invalid Write to " ++ fmtHex 18 recC1.ExceptionInformation.2.1
        else if recC1.ExceptionInformation.1 = 8 then
          "Tripped DEP at " ++ fmtHex 18 recC1.ExceptionInformation.2.1
        else
          "Unknown access violation at " ++ fmtHex 18 recC1.ExceptionInformation.2.1) ∧
      (∀ c ∈ line.data, c ≠ '\n') ∧
      (fmtHex 18 recC1.ExceptionInformation.2.1).length = 18 :=
  ⟨by decide, by decide, by decide,
   access_detail_line_correct cfgQuiet ctx0 recC1 ExceptionType.EXCEPTION_ACCESS_VIOLATION
     "b" (by decide) (by decide) (by decide)⟩

/-- C3 (counterexample to the claim as stated): a concrete fault whose
code is in the classification table (a breakpoint) on which the callback
does not return the continue-search disposition — it panics at the
`CString::new(w).unwrap()` (the backtrace text carries a NUL byte and the
stack-trace section is enabled), so no disposition is returned at all. -/
theorem known_fault_panic_no_disposition :
    fromRepr recBP.ExceptionCode = some ExceptionType.EXCEPTION_BREAKPOINT ∧
    handler (some cfgTraceOnly) ctx0 recBP btNul fsOk = Except.error [] :=
  ⟨by decide, rfl⟩

/-- C3 (amended): whenever the callback completes normally (the report's
conversion to a C string does not panic), it returns the continue-search
disposition for every fault in the classification table, every
configuration state and every file-system behaviour. -/
theorem known_fault_continue_search (cell : Option EzCrashConfiguration)
    (ctx : CONTEXT) (record : EXCEPTION_RECORD) (bt : String)
    (fs : String → String → Except Unit Unit) (r : HandlerResult)
    (hk : (fromRepr record.ExceptionCode).isSome = true)
    (h : handler cell ctx record bt fs = Except.ok r) :
    r.disposition = EXCEPTION_CONTINUE_SEARCH := by
  cases hfr : fromRepr record.ExceptionCode with
  | none =>
      rw [hfr] at hk
      simp at hk
  | some code =>
      simp only [handler, hfr] at h
      cases hcs : cstringNew (buildReport (cfgCurrent cell) ctx record code bt) with
      | none =>
          simp only [hcs] at h
          exact Except.noConfusion h
      | some m =>
          simp only [hcs] at h
          injection h with h2
          rw [← h2]

theorem known_fault_continue_search_witness :
    (fromRepr recBP.ExceptionCode).isSome = true ∧
    handler (some cfgQuiet) ctx0 recBP "b" fsOk = Except.ok rQuiet ∧
    rQuiet.disposition = EXCEPTION_CONTINUE_SEARCH :=
  ⟨by decide, rfl,
   known_fault_continue_search (some cfgQuiet) ctx0 recBP "b" fsOk rQuiet
     (by decide) rfl⟩

/-- C7 (counterexample to the claim as stated): with all three sinks
enabled and a backtrace carrying a NUL byte, the file sink receives the
report but the log and dialog sinks never run even though they are enabled
and no sink itself failed: the callback panics at the C-string conversion,
which sits between the file write and the log emission. -/
theorem sink_dispatch_blocked_by_panic :
    cfgSinks.output_log = true ∧
    cfgSinks.output_messagebox = true ∧
    handler (some cfgSinks) ctx0 recBP btNul fsOk =
      Except.error [Effect.fileWrite "crash"
        (buildReport cfgSinks ctx0 recBP ExceptionType.EXCEPTION_BREAKPOINT btNul)] :=
  ⟨rfl, rfl, rfl⟩

/-- C7 (amended): whenever the callback completes normally on a known
fault, its sink effects are exactly the file write, then the log emission,
then the dialog, each present exactly when the configuration enables it,
all three carrying the full report; and the callback's behaviour is
unchanged under any other file-system behaviour (a failing file write is
discarded and cannot affect the later sinks). -/
theorem sink_dispatch_order (cell : Option EzCrashConfiguration) (ctx : CONTEXT)
    (record : EXCEPTION_RECORD) (code : ExceptionType) (bt : String)
    (fs fs2 : String → String → Except Unit Unit) (r : HandlerResult)
    (hc : fromRepr record.ExceptionCode = some code)
    (h : handler cell ctx record bt fs = Except.ok r) :
    r.effects =
      (match (cfgCurrent cell).output_file with
        | some path =>
            [Effect.fileWrite path (buildReport (cfgCurrent cell) ctx record code bt)]
        | none => []) ++
      (if (cfgCurrent cell).output_log then
        [Effect.logError (buildReport (cfgCurrent cell) ctx record code bt)]
       else []) ++
      (if (cfgCurrent cell).output_messagebox then
        [Effect.messageBox "Crash" (buildReport (cfgCurrent cell) ctx record code bt)]
       else []) ∧
    handler cell ctx record bt fs2 = handler cell ctx record bt fs := by
  refine ⟨?_, rfl⟩
  simp only [handler, hc] at h
  cases hcs : cstringNew (buildReport (cfgCurrent cell) ctx record code bt) with
  | none =>
      simp only [hcs] at h
      exact Except.noConfusion h
  | some m =>
      have hm : m = buildReport (cfgCurrent cell) ctx record code bt := by
        unfold cstringNew at hcs
        split at hcs
        · exact Option.noConfusion hcs
        · injection hcs with h3
          exact h3.symm
      simp only [hcs] at h
      injection h with h2
      rw [← h2, hm]

theorem sink_dispatch_order_witness :
    fromRepr recBP5.ExceptionCode = some ExceptionType.EXCEPTION_BREAKPOINT ∧
    handler (some cfgOut) ctx0 recBP5 "b" fsOk = Except.ok rOut ∧
    (rOut.effects =
      (match (cfgCurrent (some cfgOut)).output_file with
        | some path =>
            [Effect.fileWrite path (buildReport (cfgCurrent (some cfgOut)) ctx0 recBP5
              ExceptionType.EXCEPTION_BREAKPOINT "b")]
        | none => []) ++
      (if (cfgCurrent (some cfgOut)).output_log then
        [Effect.logError (buildReport (cfgCurrent (some cfgOut)) ctx0 recBP5
          ExceptionType.EXCEPTION_BREAKPOINT "b")]
       else []) ++
      (if (cfgCurrent (some cfgOut)).output_messagebox then
        [Effect.messageBox "Crash" (buildReport (cfgCurrent (some cfgOut)) ctx0 recBP5
          ExceptionType.EXCEPTION_BREAKPOINT "b")]
       else []) ∧
     handler (some cfgOut) ctx0 recBP5 "b" fsFail =
       handler (some cfgOut) ctx0 recBP5 "b" fsOk) :=
  ⟨by decide, rfl,
   sink_dispatch_order (some cfgOut) ctx0 recBP5 ExceptionType.EXCEPTION_BREAKPOINT "b"
     fsOk fsFail rOut (by decide) rfl⟩

/-- C8 (code bug): a concrete invocation on which the callback does not
handle a fallible operation: the fault is a known access violation, the
stack-trace section is enabled, and the captured backtrace text carries a
NUL byte, so `CString::new(w).unwrap()` (line 121 of the source) panics
inside the exception callback instead of completing — contradicting the
spec's requirement that the callback never raises a new unhandled
condition. -/
theorem cstring_unwrap_panics :
    fromRepr recC8.ExceptionCode = some ExceptionType.EXCEPTION_ACCESS_VIOLATION ∧
    handler (some cfgTraceOnly) ctx0 recC8 btNul fsOk = Except.error [] :=
  ⟨by decide, rfl⟩

/-- C9: whenever the callback returns, the register snapshot and the
exception record it hands back are exactly the ones it was given: the
handler never mutates the OS-provided thread context or fault record. -/
theorem handler_preserves_context (cell : Option EzCrashConfiguration)
    (ctx : CONTEXT) (record : EXCEPTION_RECORD) (bt : String)
    (fs : String → String → Except Unit Unit) (r : HandlerResult)
    (h : handler cell ctx record bt fs = Except.ok r) :
    r.ctxAfter = ctx ∧ r.recordAfter = record := by
  simp only [handler] at h
  split at h
  · injection h with h2
    rw [← h2]
    exact ⟨rfl, rfl⟩
  · split at h
    · exact Except.noConfusion h
    · injection h with h2
      rw [← h2]
      exact ⟨rfl, rfl⟩

theorem handler_preserves_context_witness :
    handler (some cfgQuiet) ctx0 recBP5 "b" fsOk =
      Except.ok ⟨EXCEPTION_CONTINUE_SEARCH, [], ctx0, recBP5⟩ ∧
    (⟨EXCEPTION_CONTINUE_SEARCH, [], ctx0, recBP5⟩ : HandlerResult).ctxAfter = ctx0 ∧
    (⟨EXCEPTION_CONTINUE_SEARCH, [], ctx0, recBP5⟩ : HandlerResult).recordAfter = recBP5 :=
  ⟨rfl,
   handler_preserves_context (some cfgQuiet) ctx0 recBP5 "b" fsOk
     ⟨EXCEPTION_CONTINUE_SEARCH, [], ctx0, recBP5⟩ rfl⟩

end EzCrash
